import Mathlib

/-!
Shallow embedding of the JARVISAI desktop-assistant core: the tool-call
dispatch handlers of AIController (src/ai_control.py), the operation
registry (AIController.available_functions), the realtime audio session
management (start_realtime / stop_realtime / _audio_callback), and
SystemController.control_volume (src/system_control.py).

Modelling conventions:
- Python values appearing in tool-call argument mappings are modelled by
  PyVal; a Python dict of arguments is an association list Params, and
  dict.get with its None default is Params.get.
- A Python call that may raise is modelled as returning Except String A:
  Except.error e stands for a raised exception whose str() is e.
- The concrete capability objects (FileOperations, TerminalOperations,
  WebOperations, MediaOperations, SystemController methods reached via
  keyword unpacking) are thin wrappers around OS and SDK calls; each is
  modelled as a record of functions that may raise, so the theorems
  quantify over every possible behaviour of the underlying capability.
- External side effects of SystemController.control_volume (keyboard
  events, subprocess runs, os.system calls, osascript invocations) are
  reified as SysAction values; an environment SysEnv says for each action
  whether the call returns output or raises.  control_volume returns the
  pair of its Python return string and the list of actions it attempted,
  in order.
-/

/-- A Python value appearing in a tool-call argument mapping. -/
inductive PyVal where
  | none : PyVal
  | int : Int → PyVal
  | str : String → PyVal
deriving DecidableEq, Repr

/-- Python str() of a PyVal, as used by f-string interpolation. -/
def pyStr : PyVal → String
  | PyVal.none => "None"
  | PyVal.int n => toString n
  | PyVal.str s => s

/-- A Python dict of keyword arguments, as an association list.
Python dicts have unique keys; first match wins on lookup. -/
abbrev Params := List (String × PyVal)

/-- Key membership test: models the Python expression key in params. -/
def Params.lookup (p : Params) (k : String) : Option PyVal :=
  List.lookup k p

/-- Models params.get(key): the stored value, or None when absent. -/
def Params.get (p : Params) (k : String) : PyVal :=
  (Params.lookup p k).getD PyVal.none

/-- One entry of the conversation transcript (an element of
AIController.messages, a dict with role and content keys). -/
structure TranscriptEntry where
  role : String
  content : String
deriving DecidableEq, Repr

/-- One captured audio buffer (the indata array handed to
AIController audio callback). -/
def AudioFrame := List Int

/-- The sounddevice InputStream object created by start_realtime.
The id distinguishes distinct stream objects; active mirrors whether
start() has been called and stop() has not; closed mirrors close(). -/
structure AudioStream where
  id : Nat
  active : Bool
  closed : Bool
deriving DecidableEq, Repr

/-- The websocket.WebSocketApp object held in self.ws. -/
structure WsConn where
  id : Nat
  closed : Bool
deriving DecidableEq, Repr

/-- The threading.Thread object held in self.ws_thread. -/
structure WsThread where
  id : Nat
  joined : Bool
deriving DecidableEq, Repr

/-- An external side effect attempted by SystemController.control_volume:
a keyboard.press_and_release call, a subprocess.run invocation, an
osascript run issued through execute_osascript, or an os.system call. -/
inductive SysAction where
  | keyPress : String → SysAction
  | runSubprocess : List String → SysAction
  | osascript : String → SysAction
  | osSystem : String → SysAction
deriving DecidableEq, Repr

/-- Behaviour of the platform for each attempted side effect: the call
either returns output (Except.ok) or raises (Except.error). -/
def SysEnv := SysAction → Except String String

/-- The supported_features dict built in
SystemController._setup_platform_specific_imports (all True on the known
platforms, all False on an unrecognized platform). -/
structure SupportedFeatures where
  volume : Bool
  brightness : Bool
  power : Bool
  window : Bool
  process : Bool
deriving DecidableEq, Repr

/-- The state of a SystemController instance (src/system_control.py):
its platform string and its supported_features flags. -/
structure SystemController where
  system : String
  supported_features : SupportedFeatures
deriving DecidableEq, Repr

/-- The supported_features value assigned on the known platforms. -/
def defaultSupportedFeatures : SupportedFeatures :=
  { volume := true, brightness := true, power := true,
    window := true, process := true }

/-- Outcome of one attempted raisable call inside the try block of
control_volume: the pair of (raised-or-ok, actions attempted). -/
def attempt (env : SysEnv) (a : SysAction) : Except String Unit × List SysAction :=
  match env a with
  | Except.ok _ => (Except.ok (), [a])
  | Except.error e => (Except.error e, [a])

/-- SystemController._execute_osascript: runs osascript -e script through
subprocess.run and returns stdout, catching any exception internally and
returning an error string instead; it never raises past its boundary. -/
def execute_osascript (env : SysEnv) (script : String) : String × List SysAction :=
  match env (SysAction.osascript script) with
  | Except.ok out => (out, [SysAction.osascript script])
  | Except.error e => ("Error executing AppleScript: " ++ e, [SysAction.osascript script])

/-- A branch of control_volume that calls execute_osascript: the returned
string is discarded by the source, and no exception can escape because
execute_osascript catches internally. -/
def osaStep (env : SysEnv) (script : String) : Except String Unit × List SysAction :=
  (Except.ok (), (execute_osascript env script).2)

/-- The constant powershell command string built by the windows set
branch of control_volume (the source builds it with an f-string but
interpolates nothing). -/
def windowsVolumeSetCmd : String :=
  "(New-Object -ComObject WScript.Shell).SendKeys([char]173); (New-Object -ComObject WScript.Shell).SendKeys([char]174); (New-Object -ComObject WScript.Shell).SendKeys([char]175);"

/-- The try block of SystemController.control_volume: the platform and
action if/elif chains.  Each branch attempts at most one side effect; a
branch that matches nothing falls through to the success return. -/
def volumeTryBody (sc : SystemController) (env : SysEnv) (action : String)
    (value : PyVal) : Except String Unit × List SysAction :=
  if sc.system = "windows" then
    if action = "mute" then attempt env (SysAction.keyPress ("volume mute"))
    else if action = "up" then attempt env (SysAction.keyPress ("volume up"))
    else if action = "down" then attempt env (SysAction.keyPress ("volume down"))
    else if action = "set" ∧ value ≠ PyVal.none then
      attempt env (SysAction.runSubprocess ["powershell", "-Command", windowsVolumeSetCmd])
    else (Except.ok (), [])
  else if sc.system = "darwin" then
    if action = "mute" then osaStep env ("set volume output muted true")
    else if action = "unmute" then osaStep env ("set volume output muted false")
    else if action = "set" ∧ value ≠ PyVal.none then
      osaStep env ("set volume output volume " ++ pyStr value)
    else (Except.ok (), [])
  else if sc.system = "linux" then
    if action = "mute" then attempt env (SysAction.osSystem ("amixer -D pulse sset Master mute"))
    else if action = "unmute" then attempt env (SysAction.osSystem ("amixer -D pulse sset Master unmute"))
    else if action = "set" ∧ value ≠ PyVal.none then
      attempt env (SysAction.osSystem ("amixer -D pulse sset Master " ++ pyStr value ++ "%"))
    else (Except.ok (), [])
  else (Except.ok (), [])

/-- SystemController.control_volume (src/system_control.py lines 106-147):
returns the unsupported message before attempting anything when the
volume feature flag is off; otherwise runs the try block and returns the
success f-string, converting any raised exception into the error
f-string.  The second component records every side effect attempted. -/
def SystemController.control_volume (sc : SystemController) (env : SysEnv)
    (action : String) (value : PyVal) : String × List SysAction :=
  if sc.supported_features.volume = false then
    ("Volume control is not supported on this system", [])
  else
    match volumeTryBody sc env action value with
    | (Except.ok _, log) => ("Volume " ++ action ++ " successful", log)
    | (Except.error e, log) => ("Error controlling volume: " ++ e, log)

/-- Python keyword unpacking control_volume(**params) for the signature
control_volume(self, action, value=None): raises TypeError when a key
other than action or value is present, or when action is absent;
otherwise calls control_volume with the unpacked arguments.  The
TypeError text models the CPython message.  A non-string action value is
passed through pyStr: it matches no string branch, exactly as a
non-string compares unequal to every branch label in the source. -/
def call_control_volume (sc : SystemController) (env : SysEnv)
    (params : Params) : Except String String :=
  if params.any (fun kv => ¬(kv.1 = "action" ∨ kv.1 = "value")) then
    Except.error ("TypeError: control_volume got an unexpected keyword argument")
  else
    match Params.lookup params ("action") with
    | Option.none =>
        Except.error ("TypeError: control_volume missing 1 required positional argument action")
    | Option.some av =>
        Except.ok ((SystemController.control_volume sc env (pyStr av) (Params.get params ("value"))).1)

/-- The file_operations capability object (src/file_operations.py) as
seen from the dispatcher: one raisable function per method called in
AIController.handle_file_operation, with the parameters the dispatcher
passes. -/
structure FileOperations where
  create_file : PyVal → PyVal → Except String String
  read_file : PyVal → Except String String
  write_file : PyVal → PyVal → Except String String
  append_file : PyVal → PyVal → Except String String
  delete_file : PyVal → Except String String
  create_directory : PyVal → Except String String
  list_directory : PyVal → Except String String
  delete_directory : PyVal → Except String String
  get_file_info : PyVal → Except String String
  get_directory_size : PyVal → Except String String

/-- The terminal_operations capability object (src/terminal_operations.py)
as seen from AIController.handle_terminal_operation. -/
structure TerminalOperations where
  execute_command : PyVal → Except String String
  execute_command_with_output : PyVal → Except String String
  start_process : PyVal → Except String String
  stop_process : PyVal → Except String String
  list_processes : Unit → Except String String
  get_system_info : Unit → Except String String
  get_network_info : Unit → Except String String

/-- The web_operations capability object (src/web_operations.py) as seen
from AIController.handle_web_operation. -/
structure WebOperations where
  search_web : PyVal → Except String String
  search_images : PyVal → Except String String
  search_videos : PyVal → Except String String
  search_news : PyVal → Except String String
  search_academic : PyVal → Except String String
  download_file : PyVal → PyVal → Except String String
  download_image : PyVal → PyVal → Except String String
  download_video : PyVal → PyVal → Except String String

/-- The media_operations capability object (src/media_operations.py) as
seen from AIController.handle_media_operation. -/
structure MediaOperations where
  generate_image : PyVal → Except String String
  edit_image : PyVal → PyVal → Except String String
  analyze_image : PyVal → Except String String
  generate_audio : PyVal → Except String String
  transcribe_audio : PyVal → Except String String
  edit_audio : PyVal → PyVal → Except String String

/-- The system_controller object as seen from
AIController.handle_system_control: each method is invoked through
keyword unpacking method(**params) and may raise (for example a
TypeError from the unpacking itself).  call_control_volume gives the
concrete instantiation of the control_volume field. -/
structure SystemCapability where
  control_volume : Params → Except String String
  control_brightness : Params → Except String String
  power_management : Params → Except String String
  window_management : Params → Except String String
  process_control : Params → Except String String

/-- The state of an AIController instance (src/ai_control.py): its
capability objects, configuration, conversation transcript, and the
realtime-audio fields audio_queue, is_recording, audio_stream, ws and
ws_thread.  audio_stream is Option because the Python attribute is only
created inside start_realtime (hasattr is false before that); next_id
supplies fresh object identities for newly constructed stream, websocket
and thread objects. -/
structure AIController where
  file_operations : FileOperations
  terminal_operations : TerminalOperations
  web_operations : WebOperations
  media_operations : MediaOperations
  system_controller : SystemCapability
  mode : String
  messages : List TranscriptEntry
  audio_queue : List AudioFrame
  is_recording : Bool
  audio_stream : Option AudioStream
  ws : Option WsConn
  ws_thread : Option WsThread
  next_id : Nat

/-- The system prompt built by AIController._initialize_messages.  The
long instruction text is abbreviated; only its role and the interpolated
device and time matter to the embedding. -/
def system_prompt (device : String) (now : String) : String :=
  "You are an AI assistant with control over the user system. Current system: "
    ++ device ++ " Current time: " ++ now

/-- AIController._initialize_messages: one system entry, plus a user and
an assistant entry when initial_prompt is nonempty. -/
def initMessages (device : String) (now : String) (initial_prompt : String) :
    List TranscriptEntry :=
  [{ role := "system", content := system_prompt device now }]
    ++ (if initial_prompt ≠ "" then
          [{ role := "user", content := initial_prompt },
           { role := "assistant", content := "I understand. How can I help you?" }]
        else [])

/-- AIController.__init__: wires the capability objects, initializes the
transcript, creates an empty unbounded audio queue, and leaves
is_recording False with no stream, websocket or thread objects. -/
def AIController.init (fo : FileOperations) (tops : TerminalOperations)
    (wo : WebOperations) (mo : MediaOperations) (sysc : SystemCapability)
    (mode : String) (initial_prompt : String) (device : String)
    (now : String) : AIController :=
  { file_operations := fo
    terminal_operations := tops
    web_operations := wo
    media_operations := mo
    system_controller := sysc
    mode := mode
    messages := initMessages device now initial_prompt
    audio_queue := []
    is_recording := false
    audio_stream := Option.none
    ws := Option.none
    ws_thread := Option.none
    next_id := 0 }

/-- The except clause of each dispatch handler: a raised exception
becomes the prefixed error string, a normal return passes through. -/
def catchFmt (errPrefix : String) (r : Except String String) : String :=
  match r with
  | Except.ok s => s
  | Except.error e => errPrefix ++ e

/-- The try block of AIController.handle_file_operation: the if/elif
chain over the operation name, each branch calling one file_operations
method with the params.get values; an unrecognized name returns the
fixed fallback string. -/
def runFileBody (fo : FileOperations) (operation : String) (params : Params) :
    Except String String :=
  if operation = "create_file" then fo.create_file (params.get ("path")) (params.get ("content"))
  else if operation = "read_file" then fo.read_file (params.get ("path"))
  else if operation = "write_file" then fo.write_file (params.get ("path")) (params.get ("content"))
  else if operation = "append_file" then fo.append_file (params.get ("path")) (params.get ("content"))
  else if operation = "delete_file" then fo.delete_file (params.get ("path"))
  else if operation = "create_directory" then fo.create_directory (params.get ("path"))
  else if operation = "list_directory" then fo.list_directory (params.get ("path"))
  else if operation = "delete_directory" then fo.delete_directory (params.get ("path"))
  else if operation = "get_file_info" then fo.get_file_info (params.get ("path"))
  else if operation = "get_directory_size" then fo.get_directory_size (params.get ("path"))
  else Except.ok ("Invalid file operation")

/-- The try block of AIController.handle_terminal_operation. -/
def runTerminalBody (tops : TerminalOperations) (operation : String)
    (params : Params) : Except String String :=
  if operation = "execute_command" then tops.execute_command (params.get ("command"))
  else if operation = "execute_command_with_output" then tops.execute_command_with_output (params.get ("command"))
  else if operation = "start_process" then tops.start_process (params.get ("process_name"))
  else if operation = "stop_process" then tops.stop_process (params.get ("process_name"))
  else if operation = "list_processes" then tops.list_processes ()
  else if operation = "get_system_info" then tops.get_system_info ()
  else if operation = "get_network_info" then tops.get_network_info ()
  else Except.ok ("Invalid terminal operation")

/-- The try block of AIController.handle_web_operation. -/
def runWebBody (wo : WebOperations) (operation : String) (params : Params) :
    Except String String :=
  if operation = "search_web" then wo.search_web (params.get ("query"))
  else if operation = "search_images" then wo.search_images (params.get ("query"))
  else if operation = "search_videos" then wo.search_videos (params.get ("query"))
  else if operation = "search_news" then wo.search_news (params.get ("query"))
  else if operation = "search_academic" then wo.search_academic (params.get ("query"))
  else if operation = "download_file" then wo.download_file (params.get ("url")) (params.get ("path"))
  else if operation = "download_image" then wo.download_image (params.get ("url")) (params.get ("path"))
  else if operation = "download_video" then wo.download_video (params.get ("url")) (params.get ("path"))
  else Except.ok ("Invalid web operation")

/-- The try block of AIController.handle_media_operation. -/
def runMediaBody (mo : MediaOperations) (operation : String) (params : Params) :
    Except String String :=
  if operation = "generate_image" then mo.generate_image (params.get ("prompt"))
  else if operation = "edit_image" then mo.edit_image (params.get ("path")) (params.get ("instruction"))
  else if operation = "analyze_image" then mo.analyze_image (params.get ("path"))
  else if operation = "generate_audio" then mo.generate_audio (params.get ("text"))
  else if operation = "transcribe_audio" then mo.transcribe_audio (params.get ("path"))
  else if operation = "edit_audio" then mo.edit_audio (params.get ("path")) (params.get ("instruction"))
  else Except.ok ("Invalid media operation")

/-- The try block of AIController.handle_system_control: the if/elif
chain over the action name, each branch invoking one system_controller
method with keyword unpacking; an unrecognized action returns the
Unknown action f-string. -/
def runSystemBody (sysc : SystemCapability) (action : String) (params : Params) :
    Except String String :=
  if action = "volume" then sysc.control_volume params
  else if action = "brightness" then sysc.control_brightness params
  else if action = "power" then sysc.power_management params
  else if action = "window" then sysc.window_management params
  else if action = "process" then sysc.process_control params
  else Except.ok ("Unknown action: " ++ action)

/-- AIController.handle_file_operation (src/ai_control.py lines 287-312).
The method mutates no attribute of self, so the post-state equals the
pre-state; the returned string is the try-block result with raised
exceptions converted by the except clause. -/
def AIController.handle_file_operation (self : AIController) (operation : String)
    (params : Params) : String × AIController :=
  (catchFmt ("Error in file operation: ") (runFileBody self.file_operations operation params), self)

/-- AIController.handle_terminal_operation (lines 314-333). -/
def AIController.handle_terminal_operation (self : AIController) (operation : String)
    (params : Params) : String × AIController :=
  (catchFmt ("Error in terminal operation: ") (runTerminalBody self.terminal_operations operation params), self)

/-- AIController.handle_web_operation (lines 335-356). -/
def AIController.handle_web_operation (self : AIController) (operation : String)
    (params : Params) : String × AIController :=
  (catchFmt ("Error in web operation: ") (runWebBody self.web_operations operation params), self)

/-- AIController.handle_media_operation (lines 358-375). -/
def AIController.handle_media_operation (self : AIController) (operation : String)
    (params : Params) : String × AIController :=
  (catchFmt ("Error in media operation: ") (runMediaBody self.media_operations operation params), self)

/-- AIController.handle_system_control (lines 269-285).  Note the
different except-clause format from the other four handlers. -/
def AIController.handle_system_control (self : AIController) (action : String)
    (params : Params) : String × AIController :=
  (catchFmt ("Error executing " ++ action ++ ": ") (runSystemBody self.system_controller action params), self)

/-- Which capability group a registry entry routes to (which bound
handler method the available_functions dict stores for the name). -/
inductive HandlerGroup where
  | system | file | terminal | web | media
deriving DecidableEq, Repr

/-- AIController.available_functions (src/ai_control.py lines 82-128):
the operation registry, mapping each operation name to its handler. -/
def available_functions : List (String × HandlerGroup) :=
  [("control_volume", HandlerGroup.system),
   ("control_brightness", HandlerGroup.system),
   ("power_management", HandlerGroup.system),
   ("window_management", HandlerGroup.system),
   ("process_control", HandlerGroup.system),
   ("create_file", HandlerGroup.file),
   ("read_file", HandlerGroup.file),
   ("write_file", HandlerGroup.file),
   ("append_file", HandlerGroup.file),
   ("delete_file", HandlerGroup.file),
   ("create_directory", HandlerGroup.file),
   ("list_directory", HandlerGroup.file),
   ("delete_directory", HandlerGroup.file),
   ("get_file_info", HandlerGroup.file),
   ("get_directory_size", HandlerGroup.file),
   ("execute_command", HandlerGroup.terminal),
   ("execute_command_with_output", HandlerGroup.terminal),
   ("start_process", HandlerGroup.terminal),
   ("stop_process", HandlerGroup.terminal),
   ("list_processes", HandlerGroup.terminal),
   ("get_system_info", HandlerGroup.terminal),
   ("get_network_info", HandlerGroup.terminal),
   ("search_web", HandlerGroup.web),
   ("search_images", HandlerGroup.web),
   ("search_videos", HandlerGroup.web),
   ("search_news", HandlerGroup.web),
   ("search_academic", HandlerGroup.web),
   ("download_file", HandlerGroup.web),
   ("download_image", HandlerGroup.web),
   ("download_video", HandlerGroup.web),
   ("generate_image", HandlerGroup.media),
   ("edit_image", HandlerGroup.media),
   ("analyze_image", HandlerGroup.media),
   ("generate_audio", HandlerGroup.media),
   ("transcribe_audio", HandlerGroup.media),
   ("edit_audio", HandlerGroup.media)]

/-- AIController._audio_callback (lines 377-381): unconditionally puts a
copy of the captured frame on the audio queue (Queue.put on an unbounded
queue appends at the tail and never blocks or drops). -/
def AIController.audio_callback (self : AIController) (indata : AudioFrame) :
    AIController :=
  { self with audio_queue := self.audio_queue ++ [indata] }

/-- Repeated firing of the capture callback on a list of frames. -/
def applyCallbacks (self : AIController) (frames : List AudioFrame) : AIController :=
  frames.foldl AIController.audio_callback self

/-- AIController.start_realtime (lines 383-411): a no-op unless mode is
realtime; otherwise unconditionally constructs a fresh InputStream, a
fresh WebSocketApp, starts a fresh daemon thread, sets is_recording and
starts the stream.  There is no check of any already-active session; the
previous stream, websocket and thread objects are simply replaced. -/
def AIController.start_realtime (self : AIController) : AIController :=
  if self.mode ≠ "realtime" then self
  else
    { self with
      audio_stream := Option.some { id := self.next_id, active := true, closed := false }
      ws := Option.some { id := self.next_id + 1, closed := false }
      ws_thread := Option.some { id := self.next_id + 2, joined := false }
      is_recording := true
      next_id := self.next_id + 3 }

/-- AIController.stop_realtime (lines 413-422): clears is_recording,
stops and closes the audio stream when the attribute exists, closes the
websocket when set, and joins the thread when set.  The external stop,
close and join calls are modelled as flag updates that are defined on
any state (stopping a stopped stream, closing a closed websocket and
joining a finished thread leave it unchanged). -/
def AIController.stop_realtime (self : AIController) : AIController :=
  { self with
    is_recording := false
    audio_stream := self.audio_stream.map (fun s => { s with active := false, closed := true })
    ws := self.ws.map (fun w => { w with closed := true })
    ws_thread := self.ws_thread.map (fun t => { t with joined := true }) }

/-- Substring test used to state the message-contains properties:
pat occurs somewhere in s. -/
def strContains (pat : String) (s : String) : Bool :=
  s.data.tails.any (fun t => pat.data.isPrefixOf t)

/-- Concrete capability records for witness instances: every underlying
call succeeds with the string ok. -/
def fileOpsOk : FileOperations :=
  { create_file := fun _ _ => Except.ok ("ok")
    read_file := fun _ => Except.ok ("ok")
    write_file := fun _ _ => Except.ok ("ok")
    append_file := fun _ _ => Except.ok ("ok")
    delete_file := fun _ => Except.ok ("ok")
    create_directory := fun _ => Except.ok ("ok")
    list_directory := fun _ => Except.ok ("ok")
    delete_directory := fun _ => Except.ok ("ok")
    get_file_info := fun _ => Except.ok ("ok")
    get_directory_size := fun _ => Except.ok ("ok") }

/-- Terminal capability where every call succeeds. -/
def termOpsOk : TerminalOperations :=
  { execute_command := fun _ => Except.ok ("ok")
    execute_command_with_output := fun _ => Except.ok ("ok")
    start_process := fun _ => Except.ok ("ok")
    stop_process := fun _ => Except.ok ("ok")
    list_processes := fun _ => Except.ok ("ok")
    get_system_info := fun _ => Except.ok ("ok")
    get_network_info := fun _ => Except.ok ("ok") }

/-- Web capability where every call succeeds. -/
def webOpsOk : WebOperations :=
  { search_web := fun _ => Except.ok ("ok")
    search_images := fun _ => Except.ok ("ok")
    search_videos := fun _ => Except.ok ("ok")
    search_news := fun _ => Except.ok ("ok")
    search_academic := fun _ => Except.ok ("ok")
    download_file := fun _ _ => Except.ok ("ok")
    download_image := fun _ _ => Except.ok ("ok")
    download_video := fun _ _ => Except.ok ("ok") }

/-- Media capability where every call succeeds. -/
def mediaOpsOk : MediaOperations :=
  { generate_image := fun _ => Except.ok ("ok")
    edit_image := fun _ _ => Except.ok ("ok")
    analyze_image := fun _ => Except.ok ("ok")
    generate_audio := fun _ => Except.ok ("ok")
    transcribe_audio := fun _ => Except.ok ("ok")
    edit_audio := fun _ _ => Except.ok ("ok") }

/-- System capability where every call succeeds. -/
def sysCapOk : SystemCapability :=
  { control_volume := fun _ => Except.ok ("ok")
    control_brightness := fun _ => Except.ok ("ok")
    power_management := fun _ => Except.ok ("ok")
    window_management := fun _ => Except.ok ("ok")
    process_control := fun _ => Except.ok ("ok") }

/-- Capability records where every underlying call raises, with a
distinct message per group, to exercise the except clauses. -/
def fileOpsRaise : FileOperations :=
  { create_file := fun _ _ => Except.error ("boomfile")
    read_file := fun _ => Except.error ("boomfile")
    write_file := fun _ _ => Except.error ("boomfile")
    append_file := fun _ _ => Except.error ("boomfile")
    delete_file := fun _ => Except.error ("boomfile")
    create_directory := fun _ => Except.error ("boomfile")
    list_directory := fun _ => Except.error ("boomfile")
    delete_directory := fun _ => Except.error ("boomfile")
    get_file_info := fun _ => Except.error ("boomfile")
    get_directory_size := fun _ => Except.error ("boomfile") }

/-- Terminal capability where every call raises. -/
def termOpsRaise : TerminalOperations :=
  { execute_command := fun _ => Except.error ("boomterm")
    execute_command_with_output := fun _ => Except.error ("boomterm")
    start_process := fun _ => Except.error ("boomterm")
    stop_process := fun _ => Except.error ("boomterm")
    list_processes := fun _ => Except.error ("boomterm")
    get_system_info := fun _ => Except.error ("boomterm")
    get_network_info := fun _ => Except.error ("boomterm") }

/-- Web capability where every call raises. -/
def webOpsRaise : WebOperations :=
  { search_web := fun _ => Except.error ("boomweb")
    search_images := fun _ => Except.error ("boomweb")
    search_videos := fun _ => Except.error ("boomweb")
    search_news := fun _ => Except.error ("boomweb")
    search_academic := fun _ => Except.error ("boomweb")
    download_file := fun _ _ => Except.error ("boomweb")
    download_image := fun _ _ => Except.error ("boomweb")
    download_video := fun _ _ => Except.error ("boomweb") }

/-- Media capability where every call raises. -/
def mediaOpsRaise : MediaOperations :=
  { generate_image := fun _ => Except.error ("boommedia")
    edit_image := fun _ _ => Except.error ("boommedia")
    analyze_image := fun _ => Except.error ("boommedia")
    generate_audio := fun _ => Except.error ("boommedia")
    transcribe_audio := fun _ => Except.error ("boommedia")
    edit_audio := fun _ _ => Except.error ("boommedia") }

/-- System capability where every call raises. -/
def sysCapRaise : SystemCapability :=
  { control_volume := fun _ => Except.error ("boomsys")
    control_brightness := fun _ => Except.error ("boomsys")
    power_management := fun _ => Except.error ("boomsys")
    window_management := fun _ => Except.error ("boomsys")
    process_control := fun _ => Except.error ("boomsys") }

/-- A windows SystemController with every feature supported. -/
def scWindows : SystemController :=
  { system := "windows", supported_features := defaultSupportedFeatures }

/-- A linux SystemController whose volume feature is unsupported. -/
def scLinuxNoVolume : SystemController :=
  { system := "linux",
    supported_features :=
      { defaultSupportedFeatures with volume := false } }

/-- A platform environment where every side effect succeeds silently. -/
def envOkDemo : SysEnv := fun _ => Except.ok ("")

/-- A controller in realtime mode with all-succeeding capabilities. -/
def demoController : AIController :=
  AIController.init fileOpsOk termOpsOk webOpsOk mediaOpsOk sysCapOk
    ("realtime") ("") ("demo") ("2025-01-01 00:00:00")

/-- A controller whose every capability call raises. -/
def demoRaiser : AIController :=
  AIController.init fileOpsRaise termOpsRaise webOpsRaise mediaOpsRaise sysCapRaise
    ("text") ("") ("demo") ("2025-01-01 00:00:00")

/-- The system capability obtained by actually unpacking params into
SystemController.control_volume on a windows machine, per the source
call self.system_controller.control_volume(**params). -/
def sysCapCall : SystemCapability :=
  { control_volume := call_control_volume scWindows envOkDemo
    control_brightness := fun _ => Except.ok ("ok")
    power_management := fun _ => Except.ok ("ok")
    window_management := fun _ => Except.ok ("ok")
    process_control := fun _ => Except.ok ("ok") }

/-- A controller whose system handler reaches the real keyword-unpacked
control_volume. -/
def demoCall : AIController :=
  AIController.init fileOpsOk termOpsOk webOpsOk mediaOpsOk sysCapCall
    ("text") ("") ("demo") ("2025-01-01 00:00:00")

/-- Claim C9: in the operation registry available_functions, every
operation name is unique across all capability groups, so the registry
maps each registered name to exactly one handler. -/
theorem registry_names_unique : (available_functions.map Prod.fst).Nodup := by
  decide

/-- Claim C4: when the platform declares volume control unsupported,
control_volume returns the unsupported message and attempts no
underlying system action, for every action, value and platform
behaviour; the unsupported check precedes any attempt. -/
theorem control_volume_unsupported (sc : SystemController) (env : SysEnv)
    (action : String) (value : PyVal)
    (h : sc.supported_features.volume = false) :
    SystemController.control_volume sc env action value =
      ("Volume control is not supported on this system", []) := by
  simp [SystemController.control_volume, h]

/-- Witness for claim C4: set volume to 150 on a platform declaring
volume unsupported, in an environment where every side effect would
raise, still yields only the unsupported message and an empty action
log. -/
theorem control_volume_unsupported_witness :
    SystemController.control_volume scLinuxNoVolume
        (fun _ => Except.error ("oscallfailed")) ("set") (PyVal.int 150) =
      ("Volume control is not supported on this system", []) :=
  control_volume_unsupported scLinuxNoVolume
    (fun _ => Except.error ("oscallfailed")) ("set") (PyVal.int 150) rfl

/-- Helper: when the environment never raises, the try block of
control_volume finishes without an exception. -/
theorem volumeTryBody_fst_ok (sc : SystemController) (env : SysEnv)
    (action : String) (value : PyVal)
    (hok : ∀ a, ∃ s, env a = Except.ok s) :
    (volumeTryBody sc env action value).1 = Except.ok () := by
  have hatt : ∀ a, (attempt env a).1 = Except.ok () := by
    intro a
    obtain ⟨s, hs⟩ := hok a
    simp [attempt, hs]
  unfold volumeTryBody
  repeat' split
  all_goals first
    | exact hatt _
    | rfl

/-- Claim C10: whenever volume is declared supported and no underlying
call raises, control_volume reports Volume action successful for every
action string whatsoever, including actions that match no branch (such
as unmute on windows) where no system action is performed at all. -/
theorem control_volume_always_successful (sc : SystemController) (env : SysEnv)
    (action : String) (value : PyVal)
    (hsup : sc.supported_features.volume = true)
    (hok : ∀ a, ∃ s, env a = Except.ok s) :
    (SystemController.control_volume sc env action value).1 =
      "Volume " ++ action ++ " successful" := by
  have hb := volumeTryBody_fst_ok sc env action value hok
  rcases hvb : volumeTryBody sc env action value with ⟨r, log⟩
  rw [hvb] at hb
  simp only at hb
  subst hb
  simp [SystemController.control_volume, hsup, hvb]

/-- Witness for claim C10: the unrecognized action unmute on windows is
reported successful even though the windows branch has no unmute case
and nothing is attempted. -/
theorem control_volume_always_successful_witness :
    (SystemController.control_volume scWindows envOkDemo ("unmute") PyVal.none).1 =
      "Volume unmute successful" :=
  control_volume_always_successful scWindows envOkDemo ("unmute") PyVal.none rfl
    (fun _ => ⟨"", rfl⟩)

/-- Claim C1 (amended): every exception raised inside a dispatch handler
is caught at the dispatcher boundary and converted to a failure string,
never propagated; the file, terminal, web and media dispatchers format
it as Error in group operation: detail, while handle_system_control
formats it as Error executing action: detail. -/
theorem dispatch_error_conversion (st : AIController)
    (op1 op2 op3 op4 a : String) (p1 p2 p3 p4 p5 : Params)
    (e1 e2 e3 e4 e5 : String)
    (h1 : runFileBody st.file_operations op1 p1 = Except.error e1)
    (h2 : runTerminalBody st.terminal_operations op2 p2 = Except.error e2)
    (h3 : runWebBody st.web_operations op3 p3 = Except.error e3)
    (h4 : runMediaBody st.media_operations op4 p4 = Except.error e4)
    (h5 : runSystemBody st.system_controller a p5 = Except.error e5) :
    (st.handle_file_operation op1 p1).1 = "Error in file operation: " ++ e1
    ∧ (st.handle_terminal_operation op2 p2).1 = "Error in terminal operation: " ++ e2
    ∧ (st.handle_web_operation op3 p3).1 = "Error in web operation: " ++ e3
    ∧ (st.handle_media_operation op4 p4).1 = "Error in media operation: " ++ e4
    ∧ (st.handle_system_control a p5).1 = "Error executing " ++ a ++ ": " ++ e5 := by
  refine ⟨?_, ?_, ?_, ?_, ?_⟩
  · simp [AIController.handle_file_operation, catchFmt, h1]
  · simp [AIController.handle_terminal_operation, catchFmt, h2]
  · simp [AIController.handle_web_operation, catchFmt, h3]
  · simp [AIController.handle_media_operation, catchFmt, h4]
  · simp [AIController.handle_system_control, catchFmt, h5]

/-- Witness for claim C1: on a controller whose every capability raises,
each of the five dispatchers returns its formatted failure string. -/
theorem dispatch_error_conversion_witness :
    (AIController.handle_file_operation demoRaiser ("read_file") []).1 =
        "Error in file operation: boomfile"
    ∧ (AIController.handle_terminal_operation demoRaiser ("execute_command") []).1 =
        "Error in terminal operation: boomterm"
    ∧ (AIController.handle_web_operation demoRaiser ("search_web") []).1 =
        "Error in web operation: boomweb"
    ∧ (AIController.handle_media_operation demoRaiser ("generate_image") []).1 =
        "Error in media operation: boommedia"
    ∧ (AIController.handle_system_control demoRaiser ("volume") []).1 =
        "Error executing volume: boomsys" :=
  dispatch_error_conversion demoRaiser ("read_file") ("execute_command")
    ("search_web") ("generate_image") ("volume") [] [] [] [] []
    ("boomfile") ("boomterm") ("boomweb") ("boommedia") ("boomsys")
    rfl rfl rfl rfl rfl

/-- Counterexample for claim C1 as stated: an exception raised by the
volume capability surfaces from handle_system_control as Error executing
volume: boomsys, whose text does not even contain Error in, so the
claimed uniform format Error in group operation: detail fails for the
system dispatcher. -/
theorem system_error_format_counterexample :
    (AIController.handle_system_control demoRaiser ("volume") []).1 =
        "Error executing volume: boomsys"
    ∧ strContains ("Error in")
        ((AIController.handle_system_control demoRaiser ("volume") []).1) = false := by
  exact ⟨rfl, by decide⟩

/-- Operation names recognized by the file dispatcher branch chain. -/
def fileOpNames : List String :=
  ["create_file", "read_file", "write_file", "append_file", "delete_file",
   "create_directory", "list_directory", "delete_directory", "get_file_info",
   "get_directory_size"]

/-- Operation names recognized by the terminal dispatcher branch chain. -/
def terminalOpNames : List String :=
  ["execute_command", "execute_command_with_output", "start_process",
   "stop_process", "list_processes", "get_system_info", "get_network_info"]

/-- Operation names recognized by the web dispatcher branch chain. -/
def webOpNames : List String :=
  ["search_web", "search_images", "search_videos", "search_news",
   "search_academic", "download_file", "download_image", "download_video"]

/-- Operation names recognized by the media dispatcher branch chain. -/
def mediaOpNames : List String :=
  ["generate_image", "edit_image", "analyze_image", "generate_audio",
   "transcribe_audio", "edit_audio"]

/-- Action names recognized by the system-control dispatcher chain. -/
def systemActionNames : List String :=
  ["volume", "brightness", "power", "window", "process"]

/-- Claim C2 (amended): an action name unrecognized by the
system-control dispatcher yields the message Unknown action: name,
while names unrecognized by the file, terminal, web and media
dispatchers yield the fixed strings Invalid file/terminal/web/media
operation, which do not mention the requested name; in every case the
controller state, and with it the message transcript, is unchanged. -/
theorem unrecognized_operation_results (st : AIController)
    (a op1 op2 op3 op4 : String) (p : Params)
    (ha : a ∉ systemActionNames)
    (h1 : op1 ∉ fileOpNames)
    (h2 : op2 ∉ terminalOpNames)
    (h3 : op3 ∉ webOpNames)
    (h4 : op4 ∉ mediaOpNames) :
    st.handle_system_control a p = ("Unknown action: " ++ a, st)
    ∧ st.handle_file_operation op1 p = ("Invalid file operation", st)
    ∧ st.handle_terminal_operation op2 p = ("Invalid terminal operation", st)
    ∧ st.handle_web_operation op3 p = ("Invalid web operation", st)
    ∧ st.handle_media_operation op4 p = ("Invalid media operation", st) := by
  simp only [systemActionNames, fileOpNames, terminalOpNames, webOpNames,
    mediaOpNames, List.mem_cons, List.not_mem_nil, or_false, not_or] at ha h1 h2 h3 h4
  obtain ⟨a1, a2, a3, a4, a5⟩ := ha
  obtain ⟨f1, f2, f3, f4, f5, f6, f7, f8, f9, f10⟩ := h1
  obtain ⟨t1, t2, t3, t4, t5, t6, t7⟩ := h2
  obtain ⟨w1, w2, w3, w4, w5, w6, w7, w8⟩ := h3
  obtain ⟨m1, m2, m3, m4, m5, m6⟩ := h4
  refine ⟨?_, ?_, ?_, ?_, ?_⟩
  · simp [AIController.handle_system_control, runSystemBody, catchFmt,
      a1, a2, a3, a4, a5]
  · simp [AIController.handle_file_operation, runFileBody, catchFmt,
      f1, f2, f3, f4, f5, f6, f7, f8, f9, f10]
  · simp [AIController.handle_terminal_operation, runTerminalBody, catchFmt,
      t1, t2, t3, t4, t5, t6, t7]
  · simp [AIController.handle_web_operation, runWebBody, catchFmt,
      w1, w2, w3, w4, w5, w6, w7, w8]
  · simp [AIController.handle_media_operation, runMediaBody, catchFmt,
      m1, m2, m3, m4, m5, m6]

/-- Witness for claim C2 (amended): the name teleport is recognized by
no dispatcher; each returns its fixed message and leaves the controller
unchanged. -/
theorem unrecognized_operation_results_witness :
    AIController.handle_system_control demoController ("teleport") [] =
        ("Unknown action: teleport", demoController)
    ∧ AIController.handle_file_operation demoController ("teleport") [] =
        ("Invalid file operation", demoController)
    ∧ AIController.handle_terminal_operation demoController ("teleport") [] =
        ("Invalid terminal operation", demoController)
    ∧ AIController.handle_web_operation demoController ("teleport") [] =
        ("Invalid web operation", demoController)
    ∧ AIController.handle_media_operation demoController ("teleport") [] =
        ("Invalid media operation", demoController) :=
  unrecognized_operation_results demoController ("teleport") ("teleport")
    ("teleport") ("teleport") ("teleport") [] (by decide) (by decide)
    (by decide) (by decide) (by decide)

/-- Counterexample for claim C2 as stated: open_portal is registered in
no capability group, yet dispatching it through the file handler returns
Invalid file operation, a message that does not contain Unknown action,
contrary to the claimed uniform Unknown action: name message.  The
transcript is indeed unchanged. -/
theorem unknown_name_message_counterexample :
    ("open_portal" ∉ available_functions.map Prod.fst)
    ∧ (AIController.handle_file_operation demoController ("open_portal") []).1 =
        "Invalid file operation"
    ∧ strContains ("Unknown action")
        ((AIController.handle_file_operation demoController ("open_portal") []).1) = false
    ∧ (AIController.handle_file_operation demoController ("open_portal") []).2.messages =
        demoController.messages := by
  refine ⟨by decide, rfl, by decide, rfl⟩

/-- Claim C3 (amended): no dispatch handler mutates the transcript: the
messages list after any call to any of the five handlers equals the
messages list before, whatever the operation, arguments and outcome; in
particular no role tool entry is ever appended by a dispatch. -/
theorem dispatch_appends_no_transcript (st : AIController) (op a : String)
    (p : Params) :
    (st.handle_file_operation op p).2.messages = st.messages
    ∧ (st.handle_terminal_operation op p).2.messages = st.messages
    ∧ (st.handle_web_operation op p).2.messages = st.messages
    ∧ (st.handle_media_operation op p).2.messages = st.messages
    ∧ (st.handle_system_control a p).2.messages = st.messages :=
  ⟨rfl, rfl, rfl, rfl, rfl⟩

/-- Counterexample for claim C3 as stated: a successful create_file
dispatch returns ok but appends no transcript entry at all: the message
list length stays 1 rather than growing to 2 as the claim requires. -/
theorem successful_dispatch_appends_nothing_counterexample :
    (AIController.handle_file_operation demoController ("create_file")
        [(("path"), PyVal.str ("a.txt")), (("content"), PyVal.str ("hi"))]).1 = "ok"
    ∧ (AIController.handle_file_operation demoController ("create_file")
        [(("path"), PyVal.str ("a.txt")), (("content"), PyVal.str ("hi"))]).2.messages =
        demoController.messages
    ∧ ¬ ((AIController.handle_file_operation demoController ("create_file")
        [(("path"), PyVal.str ("a.txt")), (("content"), PyVal.str ("hi"))]).2.messages.length =
        demoController.messages.length + 1) := by
  refine ⟨rfl, rfl, by decide⟩

/-- Absent keys read through the dict.get default: params.get of a
missing key is the Python None value. -/
theorem params_get_of_absent (p : Params) (k : String)
    (h : Params.lookup p k = Option.none) : Params.get p k = PyVal.none := by
  simp [Params.get, h]

/-- Claim C5 (amended): the file, terminal, web and media dispatchers
read every parameter with params.get, so a missing key is passed through
as None and the call is still routed to the underlying handler; the
system-control dispatcher instead unpacks params with keyword unpacking,
so a missing required parameter raises a TypeError that is caught at the
dispatcher boundary and returned as an error message - the underlying
capability is not invoked with None there.  In no case does the dispatch
itself propagate an exception. -/
theorem missing_params_passed_as_none (st : AIController) (p : Params)
    (sc : SystemController) (env : SysEnv)
    (hpath : Params.lookup p ("path") = Option.none)
    (hcontent : Params.lookup p ("content") = Option.none)
    (hcommand : Params.lookup p ("command") = Option.none)
    (hurl : Params.lookup p ("url") = Option.none)
    (hprompt : Params.lookup p ("prompt") = Option.none)
    (haction : Params.lookup p ("action") = Option.none)
    (hkeys : ∀ kv ∈ p, kv.1 = "action" ∨ kv.1 = "value")
    (hsys : st.system_controller.control_volume = call_control_volume sc env) :
    (st.handle_file_operation ("create_file") p).1 =
        catchFmt ("Error in file operation: ")
          (st.file_operations.create_file PyVal.none PyVal.none)
    ∧ (st.handle_terminal_operation ("execute_command") p).1 =
        catchFmt ("Error in terminal operation: ")
          (st.terminal_operations.execute_command PyVal.none)
    ∧ (st.handle_web_operation ("download_file") p).1 =
        catchFmt ("Error in web operation: ")
          (st.web_operations.download_file PyVal.none PyVal.none)
    ∧ (st.handle_media_operation ("generate_image") p).1 =
        catchFmt ("Error in media operation: ")
          (st.media_operations.generate_image PyVal.none)
    ∧ (st.handle_system_control ("volume") p).1 =
        "Error executing volume: TypeError: control_volume missing 1 required positional argument action" := by
  have gpath := params_get_of_absent p ("path") hpath
  have gcontent := params_get_of_absent p ("content") hcontent
  have gcommand := params_get_of_absent p ("command") hcommand
  have gurl := params_get_of_absent p ("url") hurl
  have gprompt := params_get_of_absent p ("prompt") hprompt
  have hany : p.any (fun kv => ¬(kv.1 = "action" ∨ kv.1 = "value")) = false := by
    rw [List.any_eq_false]
    intro kv hkv
    have := hkeys kv hkv
    simp [this]
  have hcall : call_control_volume sc env p =
      Except.error ("TypeError: control_volume missing 1 required positional argument action") := by
    unfold call_control_volume
    rw [hany]
    simp [haction]
  refine ⟨?_, ?_, ?_, ?_, ?_⟩
  · simp [AIController.handle_file_operation, runFileBody, gpath, gcontent]
  · simp [AIController.handle_terminal_operation, runTerminalBody, gcommand]
  · simp [AIController.handle_web_operation, runWebBody, gurl, gpath]
  · simp [AIController.handle_media_operation, runMediaBody, gprompt]
  · simp [AIController.handle_system_control, runSystemBody, hsys, hcall, catchFmt]

/-- Witness for claim C5 (amended): dispatching with an empty argument
mapping routes the file, terminal, web and media calls with None
arguments, and surfaces the keyword-unpacking TypeError from the system
dispatcher as a caught error message. -/
theorem missing_params_passed_as_none_witness :
    (AIController.handle_file_operation demoCall ("create_file") []).1 =
        catchFmt ("Error in file operation: ")
          (demoCall.file_operations.create_file PyVal.none PyVal.none)
    ∧ (AIController.handle_terminal_operation demoCall ("execute_command") []).1 =
        catchFmt ("Error in terminal operation: ")
          (demoCall.terminal_operations.execute_command PyVal.none)
    ∧ (AIController.handle_web_operation demoCall ("download_file") []).1 =
        catchFmt ("Error in web operation: ")
          (demoCall.web_operations.download_file PyVal.none PyVal.none)
    ∧ (AIController.handle_media_operation demoCall ("generate_image") []).1 =
        catchFmt ("Error in media operation: ")
          (demoCall.media_operations.generate_image PyVal.none)
    ∧ (AIController.handle_system_control demoCall ("volume") []).1 =
        "Error executing volume: TypeError: control_volume missing 1 required positional argument action" :=
  missing_params_passed_as_none demoCall [] scWindows envOkDemo
    rfl rfl rfl rfl rfl rfl (by intro kv hkv; cases hkv) rfl

/-- Counterexample for claim C5 as stated: for the registered
system-control operation, a missing action key is not passed as None:
keyword unpacking raises a TypeError, the dispatcher returns the caught
error message, and the result differs from the Volume None successful
that routing with action None would have produced. -/
theorem missing_param_typeerror_counterexample :
    (AIController.handle_system_control demoCall ("volume") []).1 =
        "Error executing volume: TypeError: control_volume missing 1 required positional argument action"
    ∧ (SystemController.control_volume scWindows envOkDemo (pyStr PyVal.none) PyVal.none).1 =
        "Volume None successful"
    ∧ (AIController.handle_system_control demoCall ("volume") []).1 ≠
        "Volume None successful" := by
  refine ⟨rfl, rfl, by decide⟩

/-- Claim C6 (amended): start_realtime performs no already-active check
and never fails with AlreadyActive.  On any realtime-mode state - in
particular one whose session is already streaming - it unconditionally
re-initializes: is_recording is set, and a freshly constructed stream
object replaces the previous one, so the first session does not remain
unchanged. -/
theorem start_realtime_no_active_guard (st : AIController) (s : AudioStream)
    (hmode : st.mode = "realtime")
    (hstream : st.audio_stream = Option.some s)
    (hid : s.id < st.next_id) :
    (AIController.start_realtime st).is_recording = true
    ∧ (AIController.start_realtime st).audio_stream =
        Option.some { id := st.next_id, active := true, closed := false }
    ∧ (AIController.start_realtime st).audio_stream ≠ st.audio_stream := by
  unfold AIController.start_realtime
  rw [hmode]
  simp only [ne_eq, not_true_eq_false, if_false]
  refine ⟨trivial, trivial, ?_⟩
  rw [hstream]
  intro hcontra
  have : st.next_id = s.id := by
    have := Option.some.inj hcontra
    exact congrArg AudioStream.id this
  omega

/-- Witness for claim C6 (amended): starting a second time on a
controller already streaming succeeds and installs a fresh stream
object in place of the first one. -/
theorem start_realtime_no_active_guard_witness :
    (AIController.start_realtime (AIController.start_realtime demoController)).is_recording = true
    ∧ (AIController.start_realtime (AIController.start_realtime demoController)).audio_stream =
        Option.some { id := (AIController.start_realtime demoController).next_id,
                      active := true, closed := false }
    ∧ (AIController.start_realtime (AIController.start_realtime demoController)).audio_stream ≠
        (AIController.start_realtime demoController).audio_stream :=
  start_realtime_no_active_guard (AIController.start_realtime demoController)
    { id := 0, active := true, closed := false } rfl rfl (by decide)

/-- Counterexample for claim C6 as stated: the second start_realtime on
an already-streaming controller does not leave the first session
unchanged (and returns no AlreadyActive failure - the function has no
failure outcome at all): the streaming session is replaced by a fresh
one. -/
theorem second_start_not_rejected_counterexample :
    (AIController.start_realtime (AIController.start_realtime demoController)).audio_stream ≠
        (AIController.start_realtime demoController).audio_stream
    ∧ (AIController.start_realtime (AIController.start_realtime demoController)).is_recording = true := by
  refine ⟨by decide, rfl⟩

/-- Capture resources of the stream object are released: not active and
closed. -/
def streamReleased : Option AudioStream → Bool
  | Option.none => true
  | Option.some s => !s.active && s.closed

/-- The websocket, if any, is closed. -/
def wsConnClosed : Option WsConn → Bool
  | Option.none => true
  | Option.some w => w.closed

/-- The background thread, if any, has been joined. -/
def threadJoined : Option WsThread → Bool
  | Option.none => true
  | Option.some t => t.joined

/-- All local realtime resources of the controller are released. -/
def resourcesReleased (st : AIController) : Bool :=
  !st.is_recording && streamReleased st.audio_stream
    && wsConnClosed st.ws && threadJoined st.ws_thread

/-- Claim C7: stop_realtime is total and idempotent: a second stop is
exactly a no-op, stopping a freshly initialized controller (never
started) leaves it unchanged, and after any stop capture is halted and
the stream, websocket and thread resources are released. -/
theorem stop_realtime_idempotent (st : AIController) (fo : FileOperations)
    (tops : TerminalOperations) (wo : WebOperations) (mo : MediaOperations)
    (sysc : SystemCapability) (mode initial_prompt device now : String) :
    AIController.stop_realtime (AIController.stop_realtime st) =
        AIController.stop_realtime st
    ∧ resourcesReleased (AIController.stop_realtime st) = true
    ∧ AIController.stop_realtime
          (AIController.init fo tops wo mo sysc mode initial_prompt device now) =
        AIController.init fo tops wo mo sysc mode initial_prompt device now := by
  refine ⟨?_, ?_, rfl⟩
  · unfold AIController.stop_realtime
    rcases st.audio_stream with _ | s <;> rcases st.ws with _ | w <;>
      rcases st.ws_thread with _ | t <;> simp
  · unfold AIController.stop_realtime resourcesReleased
    rcases st.audio_stream with _ | s <;> rcases st.ws with _ | w <;>
      rcases st.ws_thread with _ | t <;>
      simp [streamReleased, wsConnClosed, threadJoined]

/-- Helper: firing the capture callback once per frame appends exactly
those frames, in order, to the audio queue; nothing is ever dropped. -/
theorem applyCallbacks_queue (frames : List AudioFrame) (st : AIController) :
    (applyCallbacks st frames).audio_queue = st.audio_queue ++ frames := by
  induction frames generalizing st with
  | nil => simp [applyCallbacks]
  | cons f fs ih =>
      show (applyCallbacks (AIController.audio_callback st f) fs).audio_queue = _
      rw [ih]
      simp [AIController.audio_callback]

/-- Claim C8 (amended): the capture queue is unbounded: every callback
invocation enqueues its frame at the tail and no frame is ever dropped,
so after n callbacks the queue has grown by exactly n. -/
theorem audio_queue_unbounded_append (st : AIController)
    (frames : List AudioFrame) :
    (applyCallbacks st frames).audio_queue = st.audio_queue ++ frames
    ∧ (applyCallbacks st frames).audio_queue.length =
        st.audio_queue.length + frames.length := by
  refine ⟨applyCallbacks_queue frames st, ?_⟩
  rw [applyCallbacks_queue frames st]
  simp

/-- Counterexample for claim C8 as stated: there is no fixed capacity
bounding the audio queue: for every candidate bound, enough callback
firings from the initial state exceed it, and no frame is dropped. -/
theorem audio_queue_no_fixed_capacity_counterexample :
    ¬ ∃ cap : Nat, ∀ n : Nat,
      (applyCallbacks demoController (List.replicate n ([0] : AudioFrame))).audio_queue.length ≤ cap := by
  rintro ⟨cap, h⟩
  have hlen := h (cap + 1)
  rw [applyCallbacks_queue] at hlen
  have hq : demoController.audio_queue = [] := rfl
  rw [hq] at hlen
  simp at hlen
